import Mathlib

/-!
Shallow embedding of `src/app.py` of the embeddings-classifier repository:
a linear classifier applied to parquet tables of embedding vectors.

Float32 values are modelled as exact rationals (`Val`); the claims under
study concern the filtering, shaping and control-flow structure of the
pipeline, which is independent of rounding.  Machine effects (file writes,
directory creation, process exit) are reified in the result types
(`FileOutcome`, `RunResult`).
-/

/-- Model of a float32 value as an exact rational. -/
abbrev Val := ℚ

/-- Minimum representable finite float32, the value of np.finfo(np.float32).min,
which equals -(2^128 - 2^104). -/
def float32_min : Val := -340282346638528859811704183484516925440

/-- A filesystem path, reduced to the parts the program inspects: a base name
and the extension as returned by Path.suffix (empty string when there is none). -/
structure FPath where
  base : String
  suffix : String
deriving DecidableEq, Repr

/-- A pyarrow table: an ordered list of named columns.  Cell values are
modelled uniformly as `Val`. -/
structure PTable where
  cols : List (String × List Val)
deriving DecidableEq

/-- The table's column names in order (pyarrow `table.column_names`). -/
def PTable.column_names (t : PTable) : List String :=
  t.cols.map Prod.fst

/-- Number of columns (pyarrow `table.num_columns`, also `len(table.column_names)`). -/
def PTable.num_columns (t : PTable) : Nat :=
  t.cols.length

/-- Number of rows (pyarrow `table.num_rows`); every column of a pyarrow table
has this length (see `PTable.wellformed`). -/
def PTable.num_rows (t : PTable) : Nat :=
  (t.cols.head?.map (fun c => c.2.length)).getD 0

/-- All columns have the common row count: an invariant every real pyarrow
table satisfies. -/
def PTable.wellformed (t : PTable) : Prop :=
  ∀ c ∈ t.cols, c.2.length = t.num_rows

/-- Name-based column access, pyarrow `table.column(name)`: returns the column
when exactly one column bears the name; a missing name (KeyError) or a
duplicated name both raise, modelled as `none`. -/
def PTable.column (t : PTable) (name : String) : Option (List Val) :=
  match t.cols.filter (fun c => c.1 == name) with
  | [c] => some c.2
  | _ => none

/-- A numpy 2-d float32 array in row-major layout, as produced by `reshape`. -/
structure Mat where
  rows : Nat
  cols : Nat
  data : List Val
deriving DecidableEq

/-- Entry at row r, column c of a row-major matrix. -/
def Mat.entry (m : Mat) (r c : Nat) : Val :=
  m.data.getD (r * m.cols + c) 0

/-- Embedding of `deserialize_classifier_params` (app.py lines 100-117), after
base64 decoding: `beta_flat` and `bias_flat` are the decoded float32 buffers.
`num_rows = len(beta_flat) // len(classes)` (integer division; a zero class
count raises ZeroDivisionError in Python), and `reshape(num_rows, num_cols)`
raises unless `num_rows * num_cols` equals the buffer length.  Any raised
error is caught and the process exits 1, modelled by `Except.error`. -/
def deserialize_classifier_params (beta_flat bias_flat : List Val)
    (classes : List String) : Except String (Mat × List Val) :=
  if classes.length = 0 then
    Except.error "integer division or modulo by zero"
  else
    let num_rows := beta_flat.length / classes.length
    let num_cols := classes.length
    if num_rows * num_cols = beta_flat.length then
      Except.ok (⟨num_rows, num_cols, beta_flat⟩, bias_flat)
    else
      Except.error "cannot reshape array"

/-- The JSON values a `threshold` config field can hold, as Python sees them
after `json.load`: a float, a list of numbers, null, an int, or a bool. -/
inductive JThreshold where
  | jfloat : Val → JThreshold
  | jlist : List Val → JThreshold
  | jnull : JThreshold
  | jint : Int → JThreshold
  | jbool : Bool → JThreshold
deriving DecidableEq

/-- Embedding of the threshold resolution in `process_single_file`
(app.py lines 170-179): a float is broadcast to a length-C vector; a list
must have exactly C entries; None becomes the minimum float32 vector; any
other type (int, bool, ...) raises TypeError. -/
def threshold_array (num_classes : Nat) : JThreshold → Except String (List Val)
  | JThreshold.jfloat x => Except.ok (List.replicate num_classes x)
  | JThreshold.jlist xs =>
      if xs.length = num_classes then Except.ok xs
      else Except.error "Threshold list length must match number of classes"
  | JThreshold.jnull => Except.ok (List.replicate num_classes float32_min)
  | JThreshold.jint _ => Except.error "Threshold must be a float or a list of floats"
  | JThreshold.jbool _ => Except.error "Threshold must be a float or a list of floats"

/-- Score of row r for class c: the matrix product `features @ beta + beta_bias`
(app.py line 168), where the features matrix is the column stack of the
feature columns, so `features[r, f] = feat_cols[f][r]`. -/
def score_at (feat_cols : List (List Val)) (beta : Mat) (bias : List Val)
    (r c : Nat) : Val :=
  ((List.range feat_cols.length).map
      (fun f => ((feat_cols.getD f []).getD r 0) * beta.entry f c)).sum
    + bias.getD c 0

/-- The (row, class) index pairs at which `scores >= threshold_array` holds,
in the order `np.where` returns them for a (R, C) array: row-major scan. -/
def passing_pairs (num_rows num_classes : Nat) (score : Nat → Nat → Val)
    (thr : List Val) : List (Nat × Nat) :=
  (List.range num_rows).flatMap (fun r =>
    (List.range num_classes).filterMap (fun c =>
      if thr.getD c 0 ≤ score r c then some (r, c) else none))

/-- One row of the long-format result table. -/
structure ResultRow where
  source : Val
  channel : Val
  offset : Val
  label : String
  score : Val
deriving DecidableEq

/-- Builds the result row for one passing (row, class) pair: the three metadata
values gathered at the row index, the class name at the class index, and the
score (app.py lines 189-207). -/
def mk_result_row (src_col chan_col off_col : List Val) (classes : List String)
    (score : Nat → Nat → Val) (rc : Nat × Nat) : ResultRow :=
  { source := src_col.getD rc.1 0
    channel := chan_col.getD rc.1 0
    offset := off_col.getD rc.1 0
    label := classes.getD rc.2 ""
    score := score rc.1 rc.2 }

/-- Output serialization format chosen from the output path extension. -/
inductive OutFormat where
  | csv
  | parquet
deriving DecidableEq

/-- Observable outcome of `process_single_file`: a file written at a path in a
format (which implies parent-directory creation), a skipped write that still
reports success, or a caught exception reported as failure. -/
inductive FileOutcome where
  | wroteFile : FPath → OutFormat → List ResultRow → FileOutcome
  | skippedEmpty : FileOutcome
  | failed : String → FileOutcome
deriving DecidableEq

/-- The feature columns: names are taken positionally (everything after the
3 metadata columns, app.py line 158) and each is then fetched by name with
`table.column` (app.py line 159). -/
def feature_cols (t : PTable) : Option (List (List Val)) :=
  (t.column_names.drop 3).mapM t.column

/-- Embedding of the body of `process_single_file` (app.py lines 148-220),
with every raised exception surfaced as `Except.error`.  Steps in source
order: feature-count check against `beta.shape[0]` (line 155, on the possibly
negative `len(column_names) - 3`), positional feature extraction (158-160),
shape validation (164-165), scores (168), threshold resolution (170-179),
mask and `np.where` (181-183), the empty/save_empty early return (185-187),
metadata gather by name (193-198), and table assembly and write (200-218). -/
def process_single_file_e (t : PTable) (output_path : FPath) (beta : Mat)
    (bias : List Val) (classes : List String) (threshold : JThreshold)
    (save_empty : Bool) : Except String FileOutcome :=
  if (t.num_columns : Int) - 3 ≠ (beta.rows : Int) then
    Except.error "File feature column count does not match classifier"
  else
    match feature_cols t with
    | none => Except.error "feature column lookup failed"
    | some fcols =>
      if ¬ ((beta.rows : Int) = (t.num_columns : Int) - 3
              ∧ beta.cols = classes.length
              ∧ bias.length = classes.length) then
        Except.error "Dimension mismatch between beta/bias and features/classes."
      else
        match threshold_array classes.length threshold with
        | Except.error m => Except.error m
        | Except.ok thr_v =>
          if passing_pairs t.num_rows beta.cols (score_at fcols beta bias) thr_v = []
              ∧ save_empty = false then
            Except.ok FileOutcome.skippedEmpty
          else
            match t.column "source", t.column "channel", t.column "offset" with
            | some src_col, some chan_col, some off_col =>
                Except.ok (FileOutcome.wroteFile output_path
                  (if output_path.suffix = ".csv" then OutFormat.csv
                   else OutFormat.parquet)
                  ((passing_pairs t.num_rows beta.cols
                      (score_at fcols beta bias) thr_v).map
                    (mk_result_row src_col chan_col off_col classes
                      (score_at fcols beta bias))))
            | _, _, _ => Except.error "metadata column lookup failed"

/-- Embedding of `process_single_file` (app.py lines 120-224): the whole body
runs under `try`, and any exception is caught, logged and turned into a
`False` return (app.py lines 222-224). -/
def process_single_file (t : PTable) (output_path : FPath) (beta : Mat)
    (bias : List Val) (classes : List String) (threshold : JThreshold)
    (save_empty : Bool) : FileOutcome :=
  match process_single_file_e t output_path beta bias classes threshold save_empty with
  | Except.ok o => o
  | Except.error m => FileOutcome.failed m

/-- Whether an outcome corresponds to `process_single_file` returning True. -/
def file_succeeded : FileOutcome → Bool
  | FileOutcome.failed _ => false
  | _ => true

/-- A loaded, field-validated config document (output of `load_config` before
threshold defaulting): decoded classifier buffers plus the optional top-level
`threshold` and `save_empty` fields. -/
structure ConfigDoc where
  classes : List String
  beta_flat : List Val
  bias_flat : List Val
  thresholdField : Option JThreshold
  saveEmptyField : Option Bool

/-- Threshold defaulting: `load_config` stores 0.0 when the field is absent
(app.py lines 84-85) and `classify` reads it with default 0.0 (line 242). -/
def effective_threshold (cfg : ConfigDoc) : JThreshold :=
  cfg.thresholdField.getD (JThreshold.jfloat 0)

/-- The `save_empty` default: `config.get("save_empty", True)` (app.py line 243). -/
def effective_save_empty (cfg : ConfigDoc) : Bool :=
  cfg.saveEmptyField.getD true

/-- The input path as `classify` probes it: an existing file (with its
extension and contents), an existing directory (with the parquet files
found under it, each with its relative stem), or a missing path. -/
inductive InputPathData where
  | file : String → PTable → InputPathData
  | dir : List (String × PTable) → InputPathData
  | missing : InputPathData

/-- Result of a `classify` invocation: the process exit status and the
per-file outcomes in processing order. -/
structure RunResult where
  exitCode : Nat
  outcomes : List FileOutcome
deriving DecidableEq

/-- Number of files reported successful (the `success_count` of app.py). -/
def success_count (r : RunResult) : Nat :=
  r.outcomes.countP file_succeeded

/-- Embedding of `classify` (app.py lines 232-287): deserialize parameters
(fatal on error), then single-file mode (extension check fatal, a per-file
failure escalates to exit 1), or directory mode (no files is fatal; each file
is processed with the output path's extension forced to `.csv`, failures are
only counted, and the run ends with exit status 0), or a missing input path
(fatal). -/
def classify (input : InputPathData) (output_path : FPath) (cfg : ConfigDoc) :
    RunResult :=
  match deserialize_classifier_params cfg.beta_flat cfg.bias_flat cfg.classes with
  | Except.error _ => ⟨1, []⟩
  | Except.ok (beta, bias) =>
    let thr := effective_threshold cfg
    let se := effective_save_empty cfg
    match input with
    | InputPathData.file ext t =>
        if ext ≠ ".parquet" then ⟨1, []⟩
        else
          let o := process_single_file t output_path beta bias cfg.classes thr se
          if file_succeeded o then ⟨0, [o]⟩ else ⟨1, [o]⟩
    | InputPathData.dir files =>
        if files = [] then ⟨1, []⟩
        else
          ⟨0, files.map (fun f =>
            process_single_file f.2 ⟨f.1, ".csv"⟩ beta bias cfg.classes thr se)⟩
    | InputPathData.missing => ⟨1, []⟩

/-- Strict row-major (lexicographic) order on (row, class) index pairs. -/
def pair_lex (p q : Nat × Nat) : Prop :=
  p.1 < q.1 ∨ (p.1 = q.1 ∧ p.2 < q.2)

theorem mem_passing_pairs {R C : Nat} {score : Nat → Nat → Val} {thr : List Val}
    {r c : Nat} :
    (r, c) ∈ passing_pairs R C score thr ↔
      r < R ∧ c < C ∧ thr.getD c 0 ≤ score r c := by
  simp only [passing_pairs, List.mem_flatMap, List.mem_filterMap, List.mem_range]
  constructor
  · rintro ⟨r', hr', c', hc', h⟩
    by_cases hle : thr.getD c' 0 ≤ score r' c'
    · rw [if_pos hle, Option.some_inj, Prod.mk.injEq] at h
      obtain ⟨h1, h2⟩ := h
      subst h1; subst h2
      exact ⟨hr', hc', hle⟩
    · rw [if_neg hle] at h
      cases h
  · rintro ⟨hr, hc, hle⟩
    exact ⟨r, hr, c, hc, by rw [if_pos hle]⟩

theorem mem_passing_block {r C : Nat} {score : Nat → Nat → Val} {thr : List Val}
    {x : Nat × Nat}
    (hx : x ∈ (List.range C).filterMap
      (fun c => if thr.getD c 0 ≤ score r c then some (r, c) else none)) :
    x.1 = r := by
  obtain ⟨c, _, h⟩ := List.mem_filterMap.mp hx
  by_cases hle : thr.getD c 0 ≤ score r c
  · rw [if_pos hle, Option.some_inj] at h
    rw [← h]
  · rw [if_neg hle] at h
    cases h

theorem passing_pairs_sorted (R C : Nat) (score : Nat → Nat → Val)
    (thr : List Val) :
    (passing_pairs R C score thr).Pairwise pair_lex := by
  unfold passing_pairs
  rw [List.pairwise_flatMap]
  constructor
  · intro r _
    rw [List.pairwise_filterMap]
    refine (List.pairwise_lt_range C).imp ?_
    intro c c' hcc' b hb b' hb'
    by_cases hle : thr.getD c 0 ≤ score r c
    · by_cases hle' : thr.getD c' 0 ≤ score r c'
      · rw [if_pos hle, Option.mem_def, Option.some_inj] at hb
        rw [if_pos hle', Option.mem_def, Option.some_inj] at hb'
        subst hb; subst hb'
        exact Or.inr ⟨rfl, hcc'⟩
      · rw [if_neg hle'] at hb'
        cases hb'
    · rw [if_neg hle] at hb
      cases hb
  · refine (List.pairwise_lt_range R).imp ?_
    intro r r' hrr' x hx y hy
    have h1 := mem_passing_block hx
    have h2 := mem_passing_block hy
    exact Or.inl (by rw [h1, h2]; exact hrr')

theorem filter_key_eq_nil {l : List (String × List Val)} {n : String}
    (h : n ∉ l.map Prod.fst) : l.filter (fun c => c.1 == n) = [] := by
  induction l with
  | nil => rfl
  | cons a l ih =>
    rw [List.map_cons, List.mem_cons] at h
    push_neg at h
    rw [List.filter_cons, if_neg (by simp [Ne.symm h.1]), ih h.2]

theorem filter_key_singleton {l : List (String × List Val)}
    (hnd : (l.map Prod.fst).Nodup) {n : String} {v : List Val}
    (hm : (n, v) ∈ l) : l.filter (fun c => c.1 == n) = [(n, v)] := by
  induction l with
  | nil => cases hm
  | cons a l ih =>
    rw [List.map_cons, List.nodup_cons] at hnd
    rcases List.mem_cons.mp hm with h | h
    · subst h
      rw [List.filter_cons, if_pos (by simp), filter_key_eq_nil hnd.1]
    · have hne : ¬ (a.1 == n) = true := by
        simp only [beq_iff_eq]
        intro he
        exact hnd.1 (he ▸ List.mem_map.mpr ⟨(n, v), h, rfl⟩)
      rw [List.filter_cons, if_neg hne, ih hnd.2 h]

/-- With pairwise-distinct column names, name-based lookup of a column that is
present returns exactly that column. -/
theorem column_of_nodup {t : PTable} (hnd : (t.cols.map Prod.fst).Nodup)
    {n : String} {v : List Val} (hm : (n, v) ∈ t.cols) :
    t.column n = some v := by
  unfold PTable.column
  rw [filter_key_singleton hnd hm]

theorem mapM_column_of_mem {t : PTable} (hnd : (t.cols.map Prod.fst).Nodup)
    (sub : List (String × List Val)) (hsub : ∀ x ∈ sub, x ∈ t.cols) :
    (sub.map Prod.fst).mapM t.column = some (sub.map Prod.snd) := by
  induction sub with
  | nil => rfl
  | cons a l ih =>
    have h1 : t.column a.1 = some a.2 :=
      column_of_nodup hnd (by rcases a with ⟨n, v⟩; exact hsub (n, v) (by simp))
    rw [List.map_cons, List.map_cons, List.mapM_cons, h1,
      ih (fun x hx => hsub x (List.mem_cons_of_mem a hx))]
    rfl

/-- With pairwise-distinct column names, the feature extraction yields exactly
the columns after position 3, in file order: selection is positional. -/
theorem feature_cols_of_nodup {t : PTable}
    (hnd : (t.cols.map Prod.fst).Nodup) :
    feature_cols t = some ((t.cols.drop 3).map Prod.snd) := by
  unfold feature_cols PTable.column_names
  rw [← List.map_drop]
  exact mapM_column_of_mem hnd _ (fun x hx => List.mem_of_mem_drop hx)

/-- Forward characterization of a run of `process_single_file` that reaches the
write step: under matching dimensions, resolvable threshold, present metadata
columns and a non-skipped write, the outcome is a written file whose rows are
the passing (row, class) pairs mapped through `mk_result_row`. -/
theorem process_single_file_writes
    (t : PTable) (p : FPath) (beta : Mat) (bias : List Val)
    (classes : List String) (thr : JThreshold) (se : Bool)
    (fcols : List (List Val)) (thr_v : List Val)
    (src_col chan_col off_col : List Val)
    (hdim : (t.num_columns : Int) - 3 = (beta.rows : Int))
    (hc : beta.cols = classes.length) (hb : bias.length = classes.length)
    (hf : feature_cols t = some fcols)
    (ht : threshold_array classes.length thr = Except.ok thr_v)
    (hsrc : t.column "source" = some src_col)
    (hchan : t.column "channel" = some chan_col)
    (hoff : t.column "offset" = some off_col)
    (hne : ¬ (passing_pairs t.num_rows beta.cols (score_at fcols beta bias) thr_v = []
                ∧ se = false)) :
    process_single_file t p beta bias classes thr se =
      FileOutcome.wroteFile p
        (if p.suffix = ".csv" then OutFormat.csv else OutFormat.parquet)
        ((passing_pairs t.num_rows beta.cols (score_at fcols beta bias) thr_v).map
          (mk_result_row src_col chan_col off_col classes
            (score_at fcols beta bias))) := by
  unfold process_single_file process_single_file_e
  rw [hf, ht]
  rw [hc] at hne
  simp only [hdim, hc, hb, hsrc, hchan, hoff]
  rw [if_neg hne]
  simp

theorem process_single_file_of_error {t : PTable} {p : FPath} {beta : Mat}
    {bias : List Val} {classes : List String} {thr : JThreshold} {se : Bool}
    {m : String}
    (h : process_single_file_e t p beta bias classes thr se = Except.error m) :
    process_single_file t p beta bias classes thr se = FileOutcome.failed m := by
  unfold process_single_file
  rw [h]

/-- When threshold resolution raises, the per-file run can only end in a caught
exception: every branch of the body that is still reachable errors. -/
theorem pse_error_of_threshold_error
    (t : PTable) (p : FPath) (beta : Mat) (bias : List Val)
    (classes : List String) (thr : JThreshold) (se : Bool) (m : String)
    (hm : threshold_array classes.length thr = Except.error m) :
    ∃ m', process_single_file_e t p beta bias classes thr se = Except.error m' := by
  unfold process_single_file_e
  split
  · exact ⟨_, rfl⟩
  · split
    · exact ⟨_, rfl⟩
    · split
      · exact ⟨_, rfl⟩
      · rw [hm]
        exact ⟨m, rfl⟩

theorem process_single_file_failed_of_threshold_error
    (t : PTable) (p : FPath) (beta : Mat) (bias : List Val)
    (classes : List String) (thr : JThreshold) (se : Bool) (m : String)
    (hm : threshold_array classes.length thr = Except.error m) :
    ∃ m', process_single_file t p beta bias classes thr se = FileOutcome.failed m' := by
  obtain ⟨m', h⟩ := pse_error_of_threshold_error t p beta bias classes thr se m hm
  exact ⟨m', process_single_file_of_error h⟩

/-- Directory mode with successfully deserialized parameters and at least one
file: every enumerated file is processed in order with a `.csv` output path,
and the run ends with exit status 0. -/
theorem classify_dir_eq (files : List (String × PTable)) (out : FPath)
    (cfg : ConfigDoc) (beta : Mat) (bias : List Val)
    (hd : deserialize_classifier_params cfg.beta_flat cfg.bias_flat cfg.classes
            = Except.ok (beta, bias))
    (hne : files ≠ []) :
    classify (InputPathData.dir files) out cfg =
      ⟨0, files.map (fun f =>
        process_single_file f.2 ⟨f.1, ".csv"⟩ beta bias cfg.classes
          (effective_threshold cfg) (effective_save_empty cfg))⟩ := by
  unfold classify
  rw [hd]
  simp [hne]

/-- A well-formed one-row input table: the three metadata columns followed by
two feature columns holding 3 and 4. -/
def t_ok : PTable :=
  ⟨[("source", [10]), ("channel", [0]), ("offset", [0]), ("f0", [3]), ("f1", [4])]⟩

/-- The same table with the three leading metadata columns renamed; cell
values are untouched. -/
def t_renamed : PTable :=
  ⟨[("a", [10]), ("b", [0]), ("c", [0]), ("f0", [3]), ("f1", [4])]⟩

/-- A one-row table with a single feature column. -/
def t_1f : PTable :=
  ⟨[("source", [7]), ("channel", [0]), ("offset", [0]), ("f0", [1])]⟩

/-- A one-row, one-feature table whose single score under `cfg_nothr` is -1. -/
def t_neg : PTable :=
  ⟨[("source", [3]), ("channel", [0]), ("offset", [0]), ("f0", [-1])]⟩

/-- A (2, 1) weight matrix with weights 1 and 2. -/
def beta_ok : Mat := ⟨2, 1, [1, 2]⟩

/-- An output path carrying the parquet extension. -/
def out_pq : FPath := ⟨"out", ".parquet"⟩

/-- An output path with no extension at all. -/
def out_noext : FPath := ⟨"results", ""⟩

/-- A single-class config with weight buffer [1, 2] and no threshold or
save_empty fields. -/
def cfg_ok : ConfigDoc := ⟨["bird"], [1, 2], [0], none, none⟩

/-- A one-class, one-feature config whose threshold field is absent. -/
def cfg_nothr : ConfigDoc := ⟨["bird"], [1], [0], none, none⟩

/-- A two-class config whose threshold list has only one entry. -/
def cfg_badlist : ConfigDoc :=
  ⟨["a", "b"], [1, 2], [0, 0], some (JThreshold.jlist [0]), none⟩

/-- A one-class config whose threshold is the JSON integer 1. -/
def cfg_int : ConfigDoc := ⟨["bird"], [1, 2], [0], some (JThreshold.jint 1), none⟩

/-- C1: with valid classifier parameters (matching dimensions, resolvable
threshold, metadata columns present) and a write that is not skipped, the
result rows written by `process_single_file` are exactly the passing
(row, class) pairs, and a pair passes iff its score reaches the resolved
per-class threshold: `threshold[c] <= scores[r][c]`. -/
theorem C1_pair_emitted_iff_score_meets_threshold
    (t : PTable) (p : FPath) (beta : Mat) (bias : List Val)
    (classes : List String) (thr : JThreshold) (se : Bool)
    (fcols : List (List Val)) (thr_v src_col chan_col off_col : List Val)
    (hdim : (t.num_columns : Int) - 3 = (beta.rows : Int))
    (hc : beta.cols = classes.length) (hb : bias.length = classes.length)
    (hf : feature_cols t = some fcols)
    (ht : threshold_array classes.length thr = Except.ok thr_v)
    (hsrc : t.column "source" = some src_col)
    (hchan : t.column "channel" = some chan_col)
    (hoff : t.column "offset" = some off_col)
    (hne : ¬ (passing_pairs t.num_rows beta.cols (score_at fcols beta bias) thr_v = []
                ∧ se = false)) :
    process_single_file t p beta bias classes thr se =
      FileOutcome.wroteFile p
        (if p.suffix = ".csv" then OutFormat.csv else OutFormat.parquet)
        ((passing_pairs t.num_rows beta.cols (score_at fcols beta bias) thr_v).map
          (mk_result_row src_col chan_col off_col classes (score_at fcols beta bias)))
      ∧ ∀ r c,
          (r, c) ∈ passing_pairs t.num_rows beta.cols (score_at fcols beta bias) thr_v
            ↔ (r < t.num_rows ∧ c < beta.cols
                ∧ thr_v.getD c 0 ≤ score_at fcols beta bias r c) :=
  ⟨process_single_file_writes t p beta bias classes thr se fcols thr_v
      src_col chan_col off_col hdim hc hb hf ht hsrc hchan hoff hne,
    fun _ _ => mem_passing_pairs⟩

/-- Witness for C1 at a concrete one-row table: the score is 3*1 + 4*2 = 11,
the threshold 0, so the single (0, 0) pair is emitted. -/
theorem C1_witness :
    process_single_file t_ok out_pq beta_ok [0] ["bird"] (JThreshold.jfloat 0) true =
      FileOutcome.wroteFile out_pq OutFormat.parquet
        [{ source := 10, channel := 0, offset := 0, label := "bird", score := 11 }]
    ∧ ((0, 0) ∈ passing_pairs t_ok.num_rows beta_ok.cols
          (score_at [[3], [4]] beta_ok [0]) [0]
        ↔ (0 < t_ok.num_rows ∧ 0 < beta_ok.cols
            ∧ ([0] : List Val).getD 0 0 ≤ score_at [[3], [4]] beta_ok [0] 0 0)) := by
  have h := C1_pair_emitted_iff_score_meets_threshold t_ok out_pq beta_ok [0] ["bird"]
    (JThreshold.jfloat 0) true [[3], [4]] [0] [10] [0] [0]
    rfl rfl rfl rfl rfl rfl rfl rfl
    (by norm_num [passing_pairs, score_at, Mat.entry, beta_ok, t_ok, PTable.num_rows,
      List.range_succ, List.filterMap_cons])
  refine ⟨?_, h.2 0 0⟩
  rw [h.1]
  norm_num [passing_pairs, score_at, Mat.entry, mk_result_row, beta_ok, t_ok, out_pq,
    PTable.num_rows, List.range_succ, List.filterMap_cons]
  exact fun hcon => absurd hcon (by decide)

/-- C9: `process_single_file` is a pure function of its inputs, so two runs on
an identical input table and identical config produce the identical outcome,
and the emitted row order is the fixed stable row-major order: the underlying
(row, class) pairs are strictly increasing lexicographically (rows in original
order, classes in config order within a row). -/
theorem C9_deterministic_row_major_order
    (t : PTable) (p : FPath) (beta : Mat) (bias : List Val)
    (classes : List String) (thr : JThreshold) (se : Bool)
    (fcols : List (List Val)) (thr_v src_col chan_col off_col : List Val)
    (hdim : (t.num_columns : Int) - 3 = (beta.rows : Int))
    (hc : beta.cols = classes.length) (hb : bias.length = classes.length)
    (hf : feature_cols t = some fcols)
    (ht : threshold_array classes.length thr = Except.ok thr_v)
    (hsrc : t.column "source" = some src_col)
    (hchan : t.column "channel" = some chan_col)
    (hoff : t.column "offset" = some off_col)
    (hne : ¬ (passing_pairs t.num_rows beta.cols (score_at fcols beta bias) thr_v = []
                ∧ se = false)) :
    process_single_file t p beta bias classes thr se
        = process_single_file t p beta bias classes thr se
    ∧ process_single_file t p beta bias classes thr se =
        FileOutcome.wroteFile p
          (if p.suffix = ".csv" then OutFormat.csv else OutFormat.parquet)
          ((passing_pairs t.num_rows beta.cols (score_at fcols beta bias) thr_v).map
            (mk_result_row src_col chan_col off_col classes (score_at fcols beta bias)))
    ∧ (passing_pairs t.num_rows beta.cols
        (score_at fcols beta bias) thr_v).Pairwise pair_lex :=
  ⟨rfl,
    process_single_file_writes t p beta bias classes thr se fcols thr_v
      src_col chan_col off_col hdim hc hb hf ht hsrc hchan hoff hne,
    passing_pairs_sorted _ _ _ _⟩

/-- Witness for C9 at a concrete input: repeated runs agree and the passing
pair list is lexicographically sorted. -/
theorem C9_witness :
    process_single_file t_ok out_pq beta_ok [0] ["bird"] (JThreshold.jfloat 0) true
        = process_single_file t_ok out_pq beta_ok [0] ["bird"] (JThreshold.jfloat 0) true
    ∧ (passing_pairs t_ok.num_rows beta_ok.cols
        (score_at [[3], [4]] beta_ok [0]) [0]).Pairwise pair_lex := by
  have h := C9_deterministic_row_major_order t_ok out_pq beta_ok [0] ["bird"]
    (JThreshold.jfloat 0) true [[3], [4]] [0] [10] [0] [0]
    rfl rfl rfl rfl rfl rfl rfl rfl
    (by norm_num [passing_pairs, score_at, Mat.entry, beta_ok, t_ok, PTable.num_rows,
      List.range_succ, List.filterMap_cons])
  exact ⟨h.1, h.2.2⟩

/-- C8: when no (row, class) pair passes the threshold and save_empty is
false, the run ends before any filesystem effect: the outcome is the skipped
write (no file created, no parent directory made) and it still counts as a
successful processing of the file. -/
theorem C8_empty_and_save_empty_false_skips_write
    (t : PTable) (p : FPath) (beta : Mat) (bias : List Val)
    (classes : List String) (thr : JThreshold)
    (fcols : List (List Val)) (thr_v : List Val)
    (hdim : (t.num_columns : Int) - 3 = (beta.rows : Int))
    (hc : beta.cols = classes.length) (hb : bias.length = classes.length)
    (hf : feature_cols t = some fcols)
    (ht : threshold_array classes.length thr = Except.ok thr_v)
    (hempty : passing_pairs t.num_rows beta.cols (score_at fcols beta bias) thr_v = []) :
    process_single_file t p beta bias classes thr false = FileOutcome.skippedEmpty
    ∧ file_succeeded
        (process_single_file t p beta bias classes thr false) = true := by
  have h : process_single_file t p beta bias classes thr false
      = FileOutcome.skippedEmpty := by
    unfold process_single_file process_single_file_e
    rw [hf, ht]
    rw [hc] at hempty
    simp only [hdim, hc, hb]
    simp [hempty]
  exact ⟨h, by rw [h]; rfl⟩

/-- C6: a decoded beta buffer holding a positive number of floats that is not
divisible by the class count makes `deserialize_classifier_params` raise (the
reshape fails), which is fatal: `classify` exits 1 with no file processed, and
no truncated weight matrix is ever returned. -/
theorem C6_nondivisible_beta_is_fatal
    (beta_flat bias_flat : List Val) (classes : List String)
    (_hpos : 0 < beta_flat.length)
    (hndvd : ¬ (classes.length ∣ beta_flat.length)) :
    (∃ m, deserialize_classifier_params beta_flat bias_flat classes
        = Except.error m)
    ∧ ∀ (input : InputPathData) (out : FPath)
        (thr_f : Option JThreshold) (se_f : Option Bool),
        classify input out ⟨classes, beta_flat, bias_flat, thr_f, se_f⟩ = ⟨1, []⟩ := by
  have herr : ∃ m, deserialize_classifier_params beta_flat bias_flat classes
      = Except.error m := by
    unfold deserialize_classifier_params
    by_cases h0 : classes.length = 0
    · rw [if_pos h0]
      exact ⟨_, rfl⟩
    · rw [if_neg h0]
      have hne : ¬ (beta_flat.length / classes.length * classes.length
          = beta_flat.length) := by
        intro he
        exact hndvd ⟨beta_flat.length / classes.length,
          by rw [Nat.mul_comm]; exact he.symm⟩
      rw [if_neg hne]
      exact ⟨_, rfl⟩
  refine ⟨herr, ?_⟩
  intro input out thr_f se_f
  obtain ⟨m, hm⟩ := herr
  unfold classify
  dsimp only
  rw [hm]

/-- Witness for C6: a 3-float buffer with 2 classes is not divisible, so the
decode errors and the whole invocation exits 1 before touching any input. -/
theorem C6_witness :
    (∃ m, deserialize_classifier_params [1, 2, 3] [0, 0] ["a", "b"]
        = Except.error m)
    ∧ classify InputPathData.missing out_pq ⟨["a", "b"], [1, 2, 3], [0, 0], none, none⟩
        = ⟨1, []⟩ := by
  have h := C6_nondivisible_beta_is_fatal [1, 2, 3] [0, 0] ["a", "b"]
    (by decide) (by decide)
  exact ⟨h.1, h.2 InputPathData.missing out_pq none none⟩

/-- C5: in directory mode with valid configuration (parameters deserialize)
and at least one enumerated file, every file is processed — one outcome per
file, each file's outcome independent of the others — and the run exits 0
regardless of how many per-file failures occur. -/
theorem C5_directory_mode_exits_zero
    (files : List (String × PTable)) (out : FPath) (cfg : ConfigDoc)
    (beta : Mat) (bias : List Val)
    (hd : deserialize_classifier_params cfg.beta_flat cfg.bias_flat cfg.classes
            = Except.ok (beta, bias))
    (hne : files ≠ []) :
    (classify (InputPathData.dir files) out cfg).exitCode = 0
    ∧ (classify (InputPathData.dir files) out cfg).outcomes =
        files.map (fun f =>
          process_single_file f.2 ⟨f.1, ".csv"⟩ beta bias cfg.classes
            (effective_threshold cfg) (effective_save_empty cfg)) := by
  rw [classify_dir_eq files out cfg beta bias hd hne]
  exact ⟨rfl, rfl⟩

/-- Witness for C5: a directory with one valid file and one file whose feature
count mismatches the classifier yields exit 0, the valid file's rows and the
mismatched file's recorded failure. -/
theorem C5_witness :
    (classify (InputPathData.dir [("good", t_ok), ("bad", t_1f)]) out_pq
        cfg_ok).exitCode = 0
    ∧ (classify (InputPathData.dir [("good", t_ok), ("bad", t_1f)]) out_pq
        cfg_ok).outcomes =
        [FileOutcome.wroteFile ⟨"good", ".csv"⟩ OutFormat.csv
          [{ source := 10, channel := 0, offset := 0, label := "bird", score := 11 }],
         FileOutcome.failed "File feature column count does not match classifier"] := by
  have h := C5_directory_mode_exits_zero [("good", t_ok), ("bad", t_1f)] out_pq
    cfg_ok beta_ok [0] rfl (by simp)
  refine ⟨h.1, ?_⟩
  rw [h.2]
  have h1 := process_single_file_writes t_ok ⟨"good", ".csv"⟩ beta_ok [0] ["bird"]
    (JThreshold.jfloat 0) true [[3], [4]] [0] [10] [0] [0]
    rfl rfl rfl rfl rfl rfl rfl rfl
    (by norm_num [passing_pairs, score_at, Mat.entry, beta_ok, t_ok, PTable.num_rows,
      List.range_succ, List.filterMap_cons])
  have h2 : process_single_file t_1f ⟨"bad", ".csv"⟩ beta_ok [0] ["bird"]
      (JThreshold.jfloat 0) true
      = FileOutcome.failed "File feature column count does not match classifier" := rfl
  simp only [List.map_cons, List.map_nil,
    show cfg_ok.classes = ["bird"] from rfl,
    show effective_threshold cfg_ok = JThreshold.jfloat 0 from rfl,
    show effective_save_empty cfg_ok = true from rfl]
  rw [h1, h2]
  norm_num [passing_pairs, score_at, Mat.entry, mk_result_row, beta_ok, t_ok,
    PTable.num_rows, List.range_succ, List.filterMap_cons]

/-- C10: a threshold that is a JSON integer or boolean raises TypeError inside
`process_single_file`; the exception is caught and reported as a per-file
failure, so no scalar broadcast happens and every file processed under such a
config fails, while a directory run under it still exits 0 with zero
successes. -/
theorem C10_int_or_bool_threshold_fails_per_file
    (t : PTable) (p : FPath) (beta : Mat) (bias : List Val)
    (classes : List String) (se : Bool) :
    (∀ n : Int, ∃ m,
        process_single_file t p beta bias classes (JThreshold.jint n) se
          = FileOutcome.failed m)
    ∧ (∀ b : Bool, ∃ m,
        process_single_file t p beta bias classes (JThreshold.jbool b) se
          = FileOutcome.failed m)
    ∧ (∀ (files : List (String × PTable)) (out : FPath) (cfg : ConfigDoc)
          (beta' : Mat) (bias' : List Val) (n : Int),
        cfg.thresholdField = some (JThreshold.jint n) →
        deserialize_classifier_params cfg.beta_flat cfg.bias_flat cfg.classes
            = Except.ok (beta', bias') →
        files ≠ [] →
        (classify (InputPathData.dir files) out cfg).exitCode = 0
        ∧ success_count (classify (InputPathData.dir files) out cfg) = 0) := by
  refine ⟨?_, ?_, ?_⟩
  · intro n
    exact process_single_file_failed_of_threshold_error t p beta bias classes
      (JThreshold.jint n) se _ rfl
  · intro b
    exact process_single_file_failed_of_threshold_error t p beta bias classes
      (JThreshold.jbool b) se _ rfl
  · intro files out cfg beta' bias' n hthr hd hne
    rw [classify_dir_eq files out cfg beta' bias' hd hne]
    refine ⟨rfl, ?_⟩
    unfold success_count
    dsimp only
    rw [List.countP_map, List.countP_eq_zero]
    intro f hf
    have heff : effective_threshold cfg = JThreshold.jint n := by
      unfold effective_threshold
      rw [hthr]
      rfl
    obtain ⟨m, hm⟩ := process_single_file_failed_of_threshold_error f.2
      ⟨f.1, ".csv"⟩ beta' bias' cfg.classes (JThreshold.jint n)
      (effective_save_empty cfg) _ rfl
    simp [Function.comp, heff, hm, file_succeeded]

/-- Witness for C10: under the integer threshold 1 (and boolean true) even a
dimension-correct file fails, and a directory run over one such file exits 0
with 0/1 successes. -/
theorem C10_witness :
    (∃ m, process_single_file t_ok out_pq beta_ok [0] ["bird"]
        (JThreshold.jint 1) true = FileOutcome.failed m)
    ∧ (∃ m, process_single_file t_ok out_pq beta_ok [0] ["bird"]
        (JThreshold.jbool true) true = FileOutcome.failed m)
    ∧ ((classify (InputPathData.dir [("good", t_ok)]) out_pq cfg_int).exitCode = 0
        ∧ success_count (classify (InputPathData.dir [("good", t_ok)]) out_pq
            cfg_int) = 0) := by
  have h := C10_int_or_bool_threshold_fails_per_file t_ok out_pq beta_ok [0]
    ["bird"] true
  exact ⟨h.1 1, h.2.1 true,
    h.2.2 [("good", t_ok)] out_pq cfg_int beta_ok [0] 1 rfl rfl (by simp)⟩

/-- Counterexample to C3: a two-class config whose threshold list has a single
entry does not abort the invocation; the directory run completes with exit
status 0, the mismatch downgraded to a per-file failure. -/
theorem C3_counterexample :
    (classify (InputPathData.dir [("x", t_1f)]) out_pq cfg_badlist).exitCode = 0
    ∧ (classify (InputPathData.dir [("x", t_1f)]) out_pq cfg_badlist).outcomes
        = [FileOutcome.failed "Threshold list length must match number of classes"] :=
  ⟨rfl, rfl⟩

/-- C3 amended: a threshold list whose length differs from the class count is
raised and caught inside `process_single_file`, a per-file data error rather
than a fatal configuration error: every file fails under it, a directory run
with valid parameters and at least one file still exits 0 with zero
successes, and only single-file mode escalates the failure to exit 1. -/
theorem C3_threshold_length_mismatch_is_per_file
    (classes : List String) (xs : List Val)
    (hlen : xs.length ≠ classes.length) :
    (∀ (t : PTable) (p : FPath) (beta : Mat) (bias : List Val) (se : Bool),
        ∃ m, process_single_file t p beta bias classes (JThreshold.jlist xs) se
          = FileOutcome.failed m)
    ∧ (∀ (files : List (String × PTable)) (out : FPath) (cfg : ConfigDoc)
          (beta : Mat) (bias : List Val),
        cfg.classes = classes →
        cfg.thresholdField = some (JThreshold.jlist xs) →
        deserialize_classifier_params cfg.beta_flat cfg.bias_flat cfg.classes
            = Except.ok (beta, bias) →
        files ≠ [] →
        (classify (InputPathData.dir files) out cfg).exitCode = 0
        ∧ success_count (classify (InputPathData.dir files) out cfg) = 0)
    ∧ (∀ (t : PTable) (out : FPath) (cfg : ConfigDoc) (beta : Mat)
          (bias : List Val),
        cfg.classes = classes →
        cfg.thresholdField = some (JThreshold.jlist xs) →
        deserialize_classifier_params cfg.beta_flat cfg.bias_flat cfg.classes
            = Except.ok (beta, bias) →
        (classify (InputPathData.file ".parquet" t) out cfg).exitCode = 1) := by
  have htherr : threshold_array classes.length (JThreshold.jlist xs)
      = Except.error "Threshold list length must match number of classes" := by
    simp only [threshold_array]
    rw [if_neg hlen]
  have hfail : ∀ (t : PTable) (p : FPath) (beta : Mat) (bias : List Val)
      (se : Bool),
      ∃ m, process_single_file t p beta bias classes (JThreshold.jlist xs) se
        = FileOutcome.failed m := by
    intro t p beta bias se
    exact process_single_file_failed_of_threshold_error t p beta bias classes
      (JThreshold.jlist xs) se _ htherr
  refine ⟨hfail, ?_, ?_⟩
  · intro files out cfg beta bias hcls hthr hd hne
    rw [classify_dir_eq files out cfg beta bias hd hne]
    refine ⟨rfl, ?_⟩
    unfold success_count
    dsimp only
    rw [List.countP_map, List.countP_eq_zero]
    intro f hf
    have heff : effective_threshold cfg = JThreshold.jlist xs := by
      unfold effective_threshold
      rw [hthr]
      rfl
    obtain ⟨m, hm⟩ := hfail f.2 ⟨f.1, ".csv"⟩ beta bias (effective_save_empty cfg)
    rw [← hcls] at hm
    simp [Function.comp, heff, hm, file_succeeded]
  · intro t out cfg beta bias hcls hthr hd
    have heff : effective_threshold cfg = JThreshold.jlist xs := by
      unfold effective_threshold
      rw [hthr]
      rfl
    obtain ⟨m, hm⟩ := hfail t out beta bias (effective_save_empty cfg)
    unfold classify
    rw [hd]
    dsimp only
    rw [if_neg (fun hcon => hcon rfl), heff, hcls, hm]
    rfl

/-- Witness for C3: the concrete two-class config with a one-entry threshold
list fails per-file, leaves a one-file directory run at exit 0 with 0/1
successes, and exits 1 in single-file mode. -/
theorem C3_witness :
    (∃ m, process_single_file t_1f out_pq ⟨1, 2, [1, 2]⟩ [0, 0] ["a", "b"]
        (JThreshold.jlist [0]) true = FileOutcome.failed m)
    ∧ ((classify (InputPathData.dir [("x", t_1f)]) out_pq cfg_badlist).exitCode = 0
        ∧ success_count (classify (InputPathData.dir [("x", t_1f)]) out_pq
            cfg_badlist) = 0)
    ∧ (classify (InputPathData.file ".parquet" t_1f) out_pq cfg_badlist).exitCode
        = 1 := by
  have h := C3_threshold_length_mismatch_is_per_file ["a", "b"] [0] (by decide)
  exact ⟨h.1 t_1f out_pq ⟨1, 2, [1, 2]⟩ [0, 0] true,
    h.2.1 [("x", t_1f)] out_pq cfg_badlist ⟨1, 2, [1, 2]⟩ [0, 0] rfl rfl rfl
      (by simp),
    h.2.2 t_1f out_pq cfg_badlist ⟨1, 2, [1, 2]⟩ [0, 0] rfl rfl rfl⟩

theorem getD_replicate_zero (num_classes c : Nat) :
    (List.replicate num_classes (0 : Val)).getD c 0 = 0 := by
  rw [List.getD_eq_getElem?_getD, List.getElem?_getD_replicate_default_eq]

/-- Counterexample to C2: under a config with no threshold field, a one-row,
one-class input whose only score is -1 produces an empty result table (exit 0,
zero rows written), not one row per (row, class) pair: the absent threshold
filters at 0.0 instead of passing everything. -/
theorem C2_counterexample :
    cfg_nothr.thresholdField = none
    ∧ classify (InputPathData.file ".parquet" t_neg) out_pq cfg_nothr
        = ⟨0, [FileOutcome.wroteFile out_pq OutFormat.parquet []]⟩
    ∧ t_neg.num_rows * cfg_nothr.classes.length = 1 := by
  refine ⟨rfl, ?_, rfl⟩
  have hpass : passing_pairs t_neg.num_rows (Mat.cols ⟨1, 1, [1]⟩)
      (score_at [[-1]] ⟨1, 1, [1]⟩ [0]) [0] = [] := by
    norm_num [passing_pairs, score_at, Mat.entry, t_neg, PTable.num_rows,
      List.range_succ, List.filterMap_cons]
  have h1 := process_single_file_writes t_neg out_pq ⟨1, 1, [1]⟩ [0] ["bird"]
    (JThreshold.jfloat 0) true [[-1]] [0] [3] [0] [0]
    rfl rfl rfl rfl rfl rfl rfl rfl (by simp)
  unfold classify
  rw [show deserialize_classifier_params cfg_nothr.beta_flat cfg_nothr.bias_flat
      cfg_nothr.classes = Except.ok (⟨1, 1, [1]⟩, [0]) from rfl]
  dsimp only
  rw [if_neg (fun hcon => hcon rfl),
    show effective_threshold cfg_nothr = JThreshold.jfloat 0 from rfl,
    show effective_save_empty cfg_nothr = true from rfl,
    show cfg_nothr.classes = ["bird"] from rfl, h1, hpass]
  simp [file_succeeded, out_pq]

/-- C2 amended: an absent threshold field is defaulted to the scalar 0.0 by
the loader, so filtering at threshold 0 applies — a pair is emitted iff its
score is at least 0.  It is the explicit JSON null threshold, not the absent
one, that resolves to the minimum-float32 vector. -/
theorem C2_absent_threshold_defaults_to_zero
    (cfg : ConfigDoc) (h : cfg.thresholdField = none) (num_classes : Nat) :
    effective_threshold cfg = JThreshold.jfloat 0
    ∧ threshold_array num_classes (JThreshold.jfloat 0)
        = Except.ok (List.replicate num_classes 0)
    ∧ threshold_array num_classes JThreshold.jnull
        = Except.ok (List.replicate num_classes float32_min)
    ∧ (∀ (num_rows : Nat) (score : Nat → Nat → Val) (r c : Nat),
        (r, c) ∈ passing_pairs num_rows num_classes score
            (List.replicate num_classes 0)
          ↔ (r < num_rows ∧ c < num_classes ∧ 0 ≤ score r c)) := by
  refine ⟨?_, rfl, rfl, ?_⟩
  · unfold effective_threshold
    rw [h]
    rfl
  · intro num_rows score r c
    rw [mem_passing_pairs, getD_replicate_zero]

/-- Witness for C2's amended statement at a one-class config with the
threshold field absent. -/
theorem C2_witness :
    effective_threshold cfg_nothr = JThreshold.jfloat 0
    ∧ threshold_array 1 (JThreshold.jfloat 0) = Except.ok [0]
    ∧ threshold_array 1 JThreshold.jnull = Except.ok [float32_min]
    ∧ ((0, 0) ∈ passing_pairs 1 1 (fun _ _ => (11 : Val)) (List.replicate 1 0)
        ↔ (0 < 1 ∧ 0 < 1 ∧ (0 : Val) ≤ 11)) := by
  have h := C2_absent_threshold_defaults_to_zero cfg_nothr rfl 1
  exact ⟨h.1, h.2.1, h.2.2.1, h.2.2.2 1 (fun _ _ => 11) 0 0⟩

/-- When the run reaches the metadata gather but the table has no column named
"source", the name lookup raises and the file is reported failed. -/
theorem process_single_file_metadata_failed
    (t : PTable) (p : FPath) (beta : Mat) (bias : List Val)
    (classes : List String) (thr : JThreshold) (se : Bool)
    (fcols : List (List Val)) (thr_v : List Val)
    (hdim : (t.num_columns : Int) - 3 = (beta.rows : Int))
    (hc : beta.cols = classes.length) (hb : bias.length = classes.length)
    (hf : feature_cols t = some fcols)
    (ht : threshold_array classes.length thr = Except.ok thr_v)
    (hne : ¬ (passing_pairs t.num_rows beta.cols (score_at fcols beta bias) thr_v = []
                ∧ se = false))
    (hsrc : t.column "source" = none) :
    process_single_file t p beta bias classes thr se
      = FileOutcome.failed "metadata column lookup failed" := by
  apply process_single_file_of_error
  unfold process_single_file_e
  rw [hf, ht]
  rw [hc] at hne
  simp only [hdim, hc, hb]
  rw [if_neg hne]
  simp [hsrc]

/-- Counterexample to C4: two tables holding identical cell values, differing
only in the names of their first three columns, get different outcomes — the
standard names succeed, the renamed ones fail at the metadata lookup — so
column selection does depend on column names. -/
theorem C4_counterexample :
    process_single_file t_ok out_pq beta_ok [0] ["bird"] (JThreshold.jfloat 0) true
        = FileOutcome.wroteFile out_pq OutFormat.parquet
            [{ source := 10, channel := 0, offset := 0, label := "bird", score := 11 }]
    ∧ process_single_file t_renamed out_pq beta_ok [0] ["bird"]
        (JThreshold.jfloat 0) true = FileOutcome.failed "metadata column lookup failed"
    ∧ t_renamed.cols.map Prod.snd = t_ok.cols.map Prod.snd := by
  refine ⟨?_, ?_, rfl⟩
  · have h1 := process_single_file_writes t_ok out_pq beta_ok [0] ["bird"]
      (JThreshold.jfloat 0) true [[3], [4]] [0] [10] [0] [0]
      rfl rfl rfl rfl rfl rfl rfl rfl
      (by norm_num [passing_pairs, score_at, Mat.entry, beta_ok, t_ok, PTable.num_rows,
        List.range_succ, List.filterMap_cons])
    rw [h1]
    norm_num [passing_pairs, score_at, Mat.entry, mk_result_row, beta_ok, t_ok, out_pq,
      PTable.num_rows, List.range_succ, List.filterMap_cons]
    exact fun hcon => absurd hcon (by decide)
  · exact process_single_file_metadata_failed t_renamed out_pq beta_ok [0] ["bird"]
      (JThreshold.jfloat 0) true [[3], [4]] [0]
      rfl rfl rfl rfl rfl
      (by norm_num [passing_pairs, score_at, Mat.entry, beta_ok, t_renamed,
        PTable.num_rows, List.range_succ, List.filterMap_cons])
      rfl

/-- C4 amended: feature columns are selected purely positionally — with
distinct column names they are exactly the columns after the first three, in
file order, whatever those columns are called — but the three metadata columns
are fetched by the fixed names source, channel, offset, and a table whose
first three columns carry other names fails at the metadata gather. -/
theorem C4_features_positional_metadata_by_name
    (t : PTable) (hnd : (t.cols.map Prod.fst).Nodup) :
    feature_cols t = some ((t.cols.drop 3).map Prod.snd)
    ∧ (∀ (p : FPath) (beta : Mat) (bias : List Val) (classes : List String)
          (thr : JThreshold) (se : Bool) (fcols : List (List Val))
          (thr_v : List Val),
        (t.num_columns : Int) - 3 = (beta.rows : Int) →
        beta.cols = classes.length → bias.length = classes.length →
        feature_cols t = some fcols →
        threshold_array classes.length thr = Except.ok thr_v →
        ¬ (passing_pairs t.num_rows beta.cols (score_at fcols beta bias) thr_v = []
            ∧ se = false) →
        t.column "source" = none →
        process_single_file t p beta bias classes thr se
          = FileOutcome.failed "metadata column lookup failed") :=
  ⟨feature_cols_of_nodup hnd,
    fun p beta bias classes thr se fcols thr_v hdim hc hb hf ht hne hsrc =>
      process_single_file_metadata_failed t p beta bias classes thr se fcols
        thr_v hdim hc hb hf ht hne hsrc⟩

/-- Witness for C4's amended statement at the renamed table. -/
theorem C4_witness :
    feature_cols t_renamed = some [[3], [4]]
    ∧ process_single_file t_renamed out_pq beta_ok [0] ["bird"]
        (JThreshold.jfloat 0) true
      = FileOutcome.failed "metadata column lookup failed" := by
  have h := C4_features_positional_metadata_by_name t_renamed (by decide)
  refine ⟨by rw [h.1]; rfl, ?_⟩
  exact h.2 out_pq beta_ok [0] ["bird"] (JThreshold.jfloat 0) true [[3], [4]] [0]
    rfl rfl rfl rfl rfl
    (by norm_num [passing_pairs, score_at, Mat.entry, beta_ok, t_renamed,
      PTable.num_rows, List.range_succ, List.filterMap_cons])
    rfl

theorem pse_wrote_path
    {t : PTable} {out : FPath} {beta : Mat} {bias : List Val}
    {classes : List String} {thr : JThreshold} {se : Bool}
    {p : FPath} {fmt : OutFormat} {rows : List ResultRow}
    (h : process_single_file_e t out beta bias classes thr se
        = Except.ok (FileOutcome.wroteFile p fmt rows)) :
    p = out
    ∧ fmt = (if out.suffix = ".csv" then OutFormat.csv else OutFormat.parquet) := by
  unfold process_single_file_e at h
  repeat' split at h
  all_goals first
    | (simp only [Except.ok.injEq, FileOutcome.wroteFile.injEq] at h
       obtain ⟨h1, h2, h3⟩ := h
       subst h1
       subst h2
       simp_all)
    | simp at h

/-- Every file written by `process_single_file` lands at exactly the output
path the caller passed in, with the format chosen from that path's extension
(parquet unless the suffix is ".csv"). -/
theorem process_single_file_wrote_path
    {t : PTable} {out : FPath} {beta : Mat} {bias : List Val}
    {classes : List String} {thr : JThreshold} {se : Bool}
    {p : FPath} {fmt : OutFormat} {rows : List ResultRow}
    (h : process_single_file t out beta bias classes thr se
        = FileOutcome.wroteFile p fmt rows) :
    p = out
    ∧ fmt = (if out.suffix = ".csv" then OutFormat.csv else OutFormat.parquet) := by
  unfold process_single_file at h
  cases hpse : process_single_file_e t out beta bias classes thr se with
  | ok o =>
      rw [hpse] at h
      dsimp only at h
      rw [h] at hpse
      exact pse_wrote_path hpse
  | error m =>
      rw [hpse] at h
      dsimp only at h
      cases h

/-- Single-file mode delegates to `process_single_file` with the caller's
output path unchanged; the run's single outcome is that call's outcome. -/
theorem classify_single_outcomes
    (t : PTable) (out : FPath) (cfg : ConfigDoc) (beta : Mat) (bias : List Val)
    (hd : deserialize_classifier_params cfg.beta_flat cfg.bias_flat cfg.classes
        = Except.ok (beta, bias)) :
    (classify (InputPathData.file ".parquet" t) out cfg).outcomes
      = [process_single_file t out beta bias cfg.classes
          (effective_threshold cfg) (effective_save_empty cfg)] := by
  unfold classify
  rw [hd]
  dsimp only
  rw [if_neg (fun hcon => hcon rfl)]
  split <;> rfl

/-- Counterexample to C7: with an extension-less output path the single-file
run writes at exactly that path — the suffix stays empty, the format falls to
parquet — so classify appended no default extension before delegating. -/
theorem C7_counterexample :
    classify (InputPathData.file ".parquet" t_ok) out_noext cfg_ok
        = ⟨0, [FileOutcome.wroteFile out_noext OutFormat.parquet
            [{ source := 10, channel := 0, offset := 0, label := "bird", score := 11 }]]⟩
    ∧ out_noext.suffix = "" := by
  refine ⟨?_, rfl⟩
  have h1 := process_single_file_writes t_ok out_noext beta_ok [0] ["bird"]
    (JThreshold.jfloat 0) true [[3], [4]] [0] [10] [0] [0]
    rfl rfl rfl rfl rfl rfl rfl rfl
    (by norm_num [passing_pairs, score_at, Mat.entry, beta_ok, t_ok, PTable.num_rows,
      List.range_succ, List.filterMap_cons])
  unfold classify
  rw [show deserialize_classifier_params cfg_ok.beta_flat cfg_ok.bias_flat
      cfg_ok.classes = Except.ok (beta_ok, [0]) from rfl]
  dsimp only
  rw [if_neg (fun hcon => hcon rfl),
    show effective_threshold cfg_ok = JThreshold.jfloat 0 from rfl,
    show effective_save_empty cfg_ok = true from rfl,
    show cfg_ok.classes = ["bird"] from rfl, h1]
  norm_num [passing_pairs, score_at, Mat.entry, mk_result_row, beta_ok, t_ok,
    out_noext, PTable.num_rows, List.range_succ, List.filterMap_cons,
    file_succeeded]
  exact fun hcon => absurd hcon (by decide)

/-- C7 amended: classify never rewrites the output path in single-file mode:
it delegates with the caller's path unchanged, and any file written lands at
exactly that path — parquet format whenever the suffix is not ".csv",
including the empty suffix; no default extension is appended. -/
theorem C7_output_path_passed_through_unchanged
    (t : PTable) (out : FPath) (beta : Mat) (bias : List Val)
    (classes : List String) (thr : JThreshold) (se : Bool) :
    (∀ (p : FPath) (fmt : OutFormat) (rows : List ResultRow),
        process_single_file t out beta bias classes thr se
            = FileOutcome.wroteFile p fmt rows →
        p = out
        ∧ fmt = (if out.suffix = ".csv" then OutFormat.csv else OutFormat.parquet))
    ∧ (∀ (cfg : ConfigDoc),
        deserialize_classifier_params cfg.beta_flat cfg.bias_flat cfg.classes
            = Except.ok (beta, bias) →
        (classify (InputPathData.file ".parquet" t) out cfg).outcomes
          = [process_single_file t out beta bias cfg.classes
              (effective_threshold cfg) (effective_save_empty cfg)]) :=
  ⟨fun _ _ _ h => process_single_file_wrote_path h,
    fun cfg hd => classify_single_outcomes t out cfg beta bias hd⟩

/-- Witness for C7's amended statement: the concrete extension-less write of
the counterexample's shape, recovered through the theorem. -/
theorem C7_witness :
    ((⟨"results", ""⟩ : FPath) = out_noext
      ∧ OutFormat.parquet = (if out_noext.suffix = ".csv" then OutFormat.csv
          else OutFormat.parquet))
    ∧ (classify (InputPathData.file ".parquet" t_ok) out_noext cfg_ok).outcomes
        = [process_single_file t_ok out_noext beta_ok [0] cfg_ok.classes
            (effective_threshold cfg_ok) (effective_save_empty cfg_ok)] := by
  have h := C7_output_path_passed_through_unchanged t_ok out_noext beta_ok [0]
    ["bird"] (JThreshold.jfloat 0) true
  refine ⟨h.1 ⟨"results", ""⟩ OutFormat.parquet
      [{ source := 10, channel := 0, offset := 0, label := "bird", score := 11 }]
      ?_, h.2 cfg_ok rfl⟩
  have h1 := process_single_file_writes t_ok out_noext beta_ok [0] ["bird"]
    (JThreshold.jfloat 0) true [[3], [4]] [0] [10] [0] [0]
    rfl rfl rfl rfl rfl rfl rfl rfl
    (by norm_num [passing_pairs, score_at, Mat.entry, beta_ok, t_ok, PTable.num_rows,
      List.range_succ, List.filterMap_cons])
  rw [h1]
  norm_num [passing_pairs, score_at, Mat.entry, mk_result_row, beta_ok, t_ok,
    out_noext, PTable.num_rows, List.range_succ, List.filterMap_cons]
  exact fun hcon => absurd hcon (by decide)

/-- Witness for C8: with threshold 100 the single score 11 fails, and with
save_empty false the outcome is the skipped write, reported as success. -/
theorem C8_witness :
    process_single_file t_ok out_pq beta_ok [0] ["bird"] (JThreshold.jfloat 100) false
        = FileOutcome.skippedEmpty
    ∧ file_succeeded (process_single_file t_ok out_pq beta_ok [0] ["bird"]
        (JThreshold.jfloat 100) false) = true :=
  C8_empty_and_save_empty_false_skips_write t_ok out_pq beta_ok [0] ["bird"]
    (JThreshold.jfloat 100) [[3], [4]] [100]
    rfl rfl rfl rfl rfl
    (by norm_num [passing_pairs, score_at, Mat.entry, beta_ok, t_ok, PTable.num_rows,
      List.range_succ, List.filterMap_cons])
